import Mathlib

/-!
Verification development for a small HTTP routing and handler-composition
engine, as exercised by the repository's test programs (src/src/main.rs).

The repository's own code consists of handlers, middleware functions,
response-conversion impls and tests; the generic routing, extraction,
middleware-chaining and response-merging machinery is supplied by an
external framework and is therefore modelled here from the specification
(definitions so marked), while handlers, `AppError`'s response conversion
and the middleware functions are translated directly from the source.
-/

namespace Axum

/-- HTTP methods used by the source programs. -/
inductive HttpMethod where
  | GET
  | POST
deriving DecidableEq, Repr

/-- Rendering of a method as in Rust's `Display` for `Method`
(used by handlers that format the method into a body). -/
def HttpMethod.str : HttpMethod → String
  | .GET => "GET"
  | .POST => "POST"

/-- A request: method, URI path, query pairs, header pairs
(names already in their canonical form) and an opaque string body. -/
structure Request where
  method : HttpMethod
  path : String
  query : List (String × String)
  headers : List (String × String)
  body : String
deriving DecidableEq, Repr

/-- A response: status code, header pairs and a string body. -/
structure Response where
  status : Nat
  headers : List (String × String)
  body : String
deriving DecidableEq, Repr

/-- Modelled from the spec (§4.4, plain-text conversion, supplied by the
framework and absent from src): a plain text return converts to status
200 with a text/plain content type. -/
def textResponse (s : String) : Response :=
  ⟨200, [("content-type", "text/plain; charset=utf-8")], s⟩

/-- Modelled from the spec (§4.1, not-found policy of the framework's
router, absent from src): an unmatched path yields a 404 outcome. -/
def notFound : Response :=
  ⟨404, [], "Not Found"⟩

/- ### Path matcher (modelled from the spec §4.1; the matcher itself is
framework code absent from src) -/

def lbrace : Char := Char.ofNat 123

def rbrace : Char := Char.ofNat 125

/-- One compiled pattern segment: a literal, or a named capture. -/
inductive Seg where
  | lit (s : String)
  | capture (name : String)
deriving DecidableEq, Repr

/-- Splitting of a character list on `/`, accumulating the current
segment in reverse. -/
def splitSlashAux : List Char → List Char → List String
  | [], cur => [String.mk cur.reverse]
  | c :: rest, cur =>
    if c = '/' then String.mk cur.reverse :: splitSlashAux rest []
    else splitSlashAux rest (c :: cur)

/-- A path or pattern is split into segments on `/`. -/
def splitSlash (s : String) : List String :=
  splitSlashAux s.data []

/-- Modelled from the spec: a pattern segment delimited by braces is a
named capture; anything else is a literal. -/
def parseSeg (s : String) : Seg :=
  match s.data with
  | c :: rest =>
    if c = lbrace ∧ rest.getLast? = some rbrace then
      .capture (String.mk rest.dropLast)
    else
      .lit s
  | [] => .lit s

/-- Modelled from the spec: a pattern is split into segments on `/`. -/
def compilePattern (p : String) : List Seg :=
  (splitSlash p).map parseSeg

/-- Path-parameter bindings, in capture declaration order. -/
abbrev PathParams := List (String × String)

/-- Modelled from the spec (§4.1): a capture segment matches any single
non-empty path segment and binds its name to it; a literal matches only
the identical string; segment counts must match exactly. -/
def matchSegs : List Seg → List String → Option PathParams
  | [], [] => some []
  | .lit l :: ps, s :: ss => if l = s then matchSegs ps ss else none
  | .capture n :: ps, s :: ss =>
      if s = "" then none else (matchSegs ps ss).map (fun bs => (n, s) :: bs)
  | _, _ => none

/-- A registered route: method, pattern, and handler.  A handler receives
the request and the path-parameter bindings and produces a response. -/
structure Route where
  method : HttpMethod
  pattern : String
  handler : Request → PathParams → Response

/-- A router is its flat route table. -/
structure Router where
  routes : List Route

/-- Modelled from the spec (§4.1): resolve method and path segments to the
first matching route together with its bindings. -/
def findRoute : List Route → HttpMethod → List String → Option (Route × PathParams)
  | [], _, _ => none
  | rt :: rts, m, segs =>
    if rt.method = m then
      match matchSegs (compilePattern rt.pattern) segs with
      | some ps => some (rt, ps)
      | none => findRoute rts m segs
    else
      findRoute rts m segs

/-- Modelled from the spec (§4.6): the sole dispatch entry point; an
unmatched request converts to the not-found response. -/
def dispatch (r : Router) (req : Request) : Response :=
  match findRoute r.routes req.method (splitSlash req.path) with
  | some (rt, ps) => rt.handler req ps
  | none => notFound

/-- Modelled from the spec (§4.1 Nesting): nesting a sub-router under a
prefix prepends the prefix to each of its patterns at composition time,
appending the result to the parent's flat route table. -/
def Router.nestUnder (r : Router) (pfx : String) (sub : Router) : Router :=
  ⟨r.routes ++ sub.routes.map (fun rt => { rt with pattern := pfx ++ rt.pattern })⟩

/- ### Concrete artifacts for the path-capture round trip
(test_path_parameter in src) -/

/-- The handler of `test_path_parameter`: formats the two captures, in
declaration order, as `Product {id}, Category {cat}`. -/
def pathParamHandler : Request → PathParams → Response := fun _ ps =>
  match ps with
  | [(_, a), (_, b)] => textResponse ("Product " ++ a ++ ", Category " ++ b)
  | _ => notFound

/-- The router of `test_path_parameter`: one GET route with two named
captures. -/
def pathParamRouter : Router :=
  ⟨[⟨.GET, "/products/\x7bid\x7d/categories/\x7bcat\x7d", pathParamHandler⟩]⟩

/-- A GET request with empty query, headers and body. -/
def getReq (p : String) : Request :=
  ⟨.GET, p, [], [], ""⟩

/- ### Header map operations (modelling `http::HeaderMap`) -/

/-- Insertion into a header multimap: any existing values for the key are
replaced by the single new value (`HeaderMap::insert`). -/
def headerInsert (k v : String) (hs : List (String × String)) : List (String × String) :=
  hs.filter (fun kv => kv.1 ≠ k) ++ [(k, v)]

/-- All values recorded for a key, in order. -/
def headerValues (k : String) (hs : List (String × String)) : List String :=
  (hs.filter (fun kv => kv.1 = k)).map Prod.snd

theorem headerValues_insert_same (k v : String) (hs : List (String × String)) :
    headerValues k (headerInsert k v hs) = [v] := by
  simp only [headerValues, headerInsert, List.filter_append, List.map_append]
  have h : (hs.filter (fun kv => kv.1 ≠ k)).filter (fun kv => kv.1 = k) = [] := by
    induction hs with
    | nil => rfl
    | cons a t ih =>
      by_cases h : a.1 = k <;> simp [h, ih, List.filter]
  simp [h]

theorem headerValues_insert_other (k k' v : String) (hs : List (String × String))
    (h : k' ≠ k) :
    headerValues k' (headerInsert k v hs) = headerValues k' hs := by
  have h3 : ¬(k = k') := fun e => h e.symm
  have hfun : (fun a : String × String => decide (a.1 = k') && !decide (a.1 = k)) =
      (fun a : String × String => decide (a.1 = k')) := by
    funext a
    by_cases ha : a.1 = k'
    · have hak : ¬(a.1 = k) := by rw [ha]; exact h
      simp [ha, hak, h]
    · simp [ha]
  simp [headerValues, headerInsert, List.filter_append, List.filter_filter, hfun, h3]

/- ### Middleware (request_id_middleware and the layer chain) -/

/-- Translated from src `request_id_middleware`: inserts the constant
request id `12345` under `X-Request-Id`, replacing any client value, and
returns the request otherwise unchanged. -/
def request_id_middleware (req : Request) : Request :=
  { req with headers := headerInsert "X-Request-Id" "12345" req.headers }

/-- Modelled from the spec (§4.5, the chain runner is framework code
absent from src): one layer, with a pre-phase that either rewrites the
request and passes it inward or short-circuits with a response, and a
post-phase transforming the response on the way out.  Both phases may
append to an observation trace. -/
structure Layer where
  pre : Request → List String → (Request ⊕ Response) × List String
  post : Response → List String → Response × List String

/-- Modelled from the spec (§4.5): the first-listed layer is outermost;
pre-phases run outward-to-inward, then the handler, then post-phases run
inward-to-outward.  On a short-circuit the inner chain and the handler
never run, but the short-circuiting layer's own post-phase still does. -/
def runChain : List Layer → (Request → List String → Response × List String) →
    Request → List String → Response × List String
  | [], h, req, tr => h req tr
  | l :: ls, h, req, tr =>
    match l.pre req tr with
    | (Sum.inl req2, tr2) =>
      let p := runChain ls h req2 tr2
      l.post p.1 p.2
    | (Sum.inr resp, tr2) => l.post resp tr2

/-- A layer that only records its pre- and post-phase executions. -/
def logLayer (name : String) : Layer :=
  ⟨fun req tr => (Sum.inl req, tr ++ [name ++ "-pre"]),
   fun resp tr => (resp, tr ++ [name ++ "-post"])⟩

/-- A handler that records its execution and greets with the method. -/
def loggingHandler : Request → List String → Response × List String :=
  fun req tr => (textResponse ("Hello " ++ req.method.str), tr ++ ["handler"])

end Axum

open Axum

/-- C1: registering `/products/{id}/categories/{cat}` and dispatching
`/products/1/categories/3` yields the bindings id → "1", cat → "3" in
declaration order, so the formatting handler returns status 200 with
body `Product 1, Category 3`. -/
theorem routing_path_capture_round_trip :
    matchSegs (compilePattern "/products/\x7bid\x7d/categories/\x7bcat\x7d")
        (splitSlash "/products/1/categories/3") = some [("id", "1"), ("cat", "3")] ∧
    dispatch pathParamRouter (getReq "/products/1/categories/3") =
      ⟨200, [("content-type", "text/plain; charset=utf-8")], "Product 1, Category 3"⟩ := by
  exact ⟨by decide, by decide⟩

/-- C2: with layers L1 (registered first, outermost) and L2 around a
handler, a non-short-circuiting request observes L1-pre, L2-pre, handler,
L2-post, L1-post, and the handler's response is returned. -/
theorem middleware_order_non_short_circuit :
    (runChain [logLayer "L1", logLayer "L2"] loggingHandler (getReq "/get") []).2 =
      ["L1-pre", "L2-pre", "handler", "L2-post", "L1-post"] ∧
    (runChain [logLayer "L1", logLayer "L2"] loggingHandler (getReq "/get") []).1 =
      textResponse "Hello GET" := by
  exact ⟨by decide, by decide⟩

/-- A sample request carrying a client-supplied X-Request-Id and one
unrelated header. -/
def sampleReq : Request :=
  ⟨.GET, "/get", [], [("X-Request-Id", "client"), ("Accept", "json")], ""⟩

/-- C10: request_id_middleware returns a request whose X-Request-Id
header is exactly "12345" (replacing any client value), with method,
path, query, body and every other header unchanged. -/
theorem request_id_middleware_frame (req : Request) :
    (request_id_middleware req).method = req.method ∧
    (request_id_middleware req).path = req.path ∧
    (request_id_middleware req).query = req.query ∧
    (request_id_middleware req).body = req.body ∧
    headerValues "X-Request-Id" (request_id_middleware req).headers = ["12345"] ∧
    ∀ k, k ≠ "X-Request-Id" →
      headerValues k (request_id_middleware req).headers = headerValues k req.headers := by
  exact ⟨rfl, rfl, rfl, rfl, headerValues_insert_same _ _ _,
    fun k hk => headerValues_insert_other _ k _ _ hk⟩

/-- Witness for C10 at a concrete request: the client's X-Request-Id is
replaced by "12345" and the Accept header is untouched. -/
theorem request_id_middleware_frame_witness :
    headerValues "X-Request-Id" (request_id_middleware sampleReq).headers = ["12345"] ∧
    headerValues "Accept" (request_id_middleware sampleReq).headers =
      headerValues "Accept" sampleReq.headers :=
  ⟨(request_id_middleware_frame sampleReq).2.2.2.2.1,
   (request_id_middleware_frame sampleReq).2.2.2.2.2 "Accept" (by decide)⟩

namespace Axum

/- ### Error handling (AppError and the generic error wrapper) -/

/-- Translated from src `AppError`: an application error with an `i32`
code and a message. -/
structure AppError where
  code : Int
  message : String

/-- Rust's `i32 as u16` cast: the low 16 bits of the two's-complement
value. -/
def asU16 (c : Int) : Nat :=
  (c % 65536).toNat

/-- Modelled from the spec: the external HTTP status type
(`StatusCode::from_u16`) accepts exactly the codes 100..=999 and fails
otherwise. -/
def statusFromU16 (n : Nat) : Option Nat :=
  if 100 ≤ n ∧ n ≤ 999 then some n else none

/-- Modelled from the spec (§4.4): conversion of a (status, text) pair
into a response — the text converts as plain text, the status part sets
the status. -/
def statusTextResponse (st : Nat) (s : String) : Response :=
  ⟨st, [("content-type", "text/plain; charset=utf-8")], s⟩

/-- Translated from src `impl IntoResponse for AppError`: the status is
`StatusCode::from_u16(self.code as u16).unwrap()` (`none` models the
unwrap's panic branch) and the body is the message. -/
def AppError.intoResponse (e : AppError) : Option Response :=
  (statusFromU16 (asU16 e.code)).map (fun st => statusTextResponse st e.message)

/-- Modelled from the spec (§4.4): `Result<Ok, Err>` conversion — the Ok
branch converts via its own shape, the Err branch via its own
conversion. -/
def resultIntoResponse (r : Except AppError String) : Option Response :=
  match r with
  | .ok s => some (textResponse s)
  | .error e => e.intoResponse

/-- Translated from src `test_error_handling`'s handler: POST succeeds,
anything else returns `AppError { code: 400, message: "Bad Request" }`. -/
def errorHandlingHandler (m : HttpMethod) : Except AppError String :=
  if m = .POST then .ok "OK" else .error ⟨400, "Bad Request"⟩

/-- Translated from src `test_unexpected_eeror`'s `route` service: POST
succeeds with body OK, anything else raises an opaque error message. -/
def unexpectedRoute (m : HttpMethod) : Except String Response :=
  if m = .POST then .ok ⟨200, [], "OK"⟩ else .error "Bad Request"

/-- Translated from src `handle_error`: converts an opaque error into a
500 response with a diagnostic body. -/
def handle_error (err : String) : Response :=
  statusTextResponse 500 ("Internal Server Error : " ++ err)

/-- Modelled from the spec (§4.6, the `HandleError` wrapper is framework
code absent from src): run the fallible service and convert an opaque
error with the supplied error handler. -/
def handleErrorService (m : HttpMethod) : Response :=
  match unexpectedRoute m with
  | .ok r => r
  | .error e => handle_error e

/- ### JSON body extraction -/

/-- Translated from src `LoginRequest`. -/
structure LoginRequest where
  username : String
  password : String
deriving DecidableEq, Repr

/-- Modelled from the spec (§4.2): the distinguishable rejection kinds of
the structured-body extraction. -/
inductive JsonRejection where
  | jsonDataError
  | jsonSyntaxError
  | missingJsonContentType
deriving DecidableEq, Repr

/-- The Debug rendering of a rejection, as produced by `format!` with the
debug formatter in the source's handler. -/
def JsonRejection.debugStr : JsonRejection → String
  | .jsonDataError => "JsonDataError(JsonDataError)"
  | .jsonSyntaxError => "JsonSyntaxError(JsonSyntaxError)"
  | .missingJsonContentType => "MissingJsonContentType(MissingJsonContentType)"

def quoteChar : Char := Char.ofNat 34

/-- Drops an expected literal from the front of the input, failing when
the input does not start with it. -/
def dropPfx : List Char → List Char → Option (List Char)
  | [], cs => some cs
  | p :: ps, c :: cs => if p = c then dropPfx ps cs else none
  | _ :: _, [] => none

/-- Reads characters up to the next double quote; fails when none
occurs. -/
def readStr : List Char → Option (List Char × List Char)
  | [] => none
  | c :: cs =>
    if c = quoteChar then some ([], cs)
    else (readStr cs).map (fun p => (c :: p.1, p.2))

/-- Modelled from the spec (§1, §6: the JSON codec is an external
collaborator absent from src): a parser for the canonical encoding of
`LoginRequest`, with both fields in declaration order and no escape
sequences in the field values. -/
def parseLoginRequest (s : String) : Option LoginRequest := do
  let cs ← dropPfx ("\x7b\"username\":\"").data s.data
  let p1 ← readStr cs
  let cs2 ← dropPfx (",\"password\":\"").data p1.2
  let p2 ← readStr cs2
  let cs3 ← dropPfx ("\x7d").data p2.2
  if cs3 = [] then pure ⟨String.mk p1.1, String.mk p2.1⟩ else none

/-- The first content-type header value of a request, when present. -/
def contentType (req : Request) : Option String :=
  ((req.headers.filter (fun kv => kv.1 = "content-type")).head?).map Prod.snd

/-- Modelled from the spec (§4.2): the structured-body extraction
requires an application/json content type. -/
def contentTypeIsJson (req : Request) : Bool :=
  match contentType req with
  | some v => v = "application/json"
  | none => false

/-- Modelled from the spec (§4.2): structured-body extraction — a
missing or mismatched content type yields the missing-JSON-content-type
kind; a body that does not parse as the target shape yields the
malformed-JSON kind. -/
def jsonExtract (req : Request) : Except JsonRejection LoginRequest :=
  if contentTypeIsJson req then
    match parseLoginRequest req.body with
    | some v => .ok v
    | none => .error .jsonSyntaxError
  else
    .error .missingJsonContentType

/-- Modelled from the spec (§4.2): the framework's own conversion of a
rejection into a response, used when the handler does not opt in. -/
def rejectionResponse : JsonRejection → Response
  | .missingJsonContentType =>
    statusTextResponse 415 "Expected request with Content-Type: application/json"
  | .jsonSyntaxError =>
    statusTextResponse 400 "Failed to parse the request body as JSON"
  | .jsonDataError =>
    statusTextResponse 422 "Failed to deserialize the JSON body into the target type"

/-- Translated from src `test_json_error`'s handler: an Ok extraction
greets the user, an Err extraction formats the rejection. -/
def jsonErrorHandler (payload : Except JsonRejection LoginRequest) : String :=
  match payload with
  | .ok r => "Hello " ++ r.username
  | .error e => "Error " ++ e.debugStr

/-- Whether the handler declares the fallible extraction as
`Result<Json<T>, JsonRejection>` (opt-in) or as plain `Json<T>`
(strict). -/
inductive ExtractMode where
  | strict
  | optIn

/-- Modelled from the spec (§4.2, §4.3): invocation of a route whose
handler declares the JSON body extraction.  In strict mode a rejection
short-circuits (the handler never runs); in opt-in mode the rejection is
delivered to the handler as its argument.  Returns the response together
with the number of times the handler body ran. -/
def invokeJsonRoute (mode : ExtractMode)
    (handler : Except JsonRejection LoginRequest → String) (req : Request) :
    Response × Nat :=
  match mode, jsonExtract req with
  | .strict, .error rej => (rejectionResponse rej, 0)
  | .strict, .ok v => (textResponse (handler (.ok v)), 1)
  | .optIn, r => (textResponse (handler r), 1)

/-- A POST request whose body was set with `.text(..)` (content type
text/plain). -/
def textPostReq (b : String) : Request :=
  ⟨.POST, "/post", [], [("content-type", "text/plain")], b⟩

/-- A POST request whose body was set with `.json(..)` (content type
application/json). -/
def jsonPostReq (b : String) : Request :=
  ⟨.POST, "/post", [], [("content-type", "application/json")], b⟩

/- ### Tuple response merge and nesting -/

/-- Translated from src `LoginResponse`. -/
structure LoginResponse where
  token : String
deriving DecidableEq, Repr

/-- Modelled from the spec (§4.4): the canonical JSON encoding of
`LoginResponse`, object key order equal to declaration order. -/
def encodeLoginResponse (r : LoginResponse) : String :=
  "\x7b\"token\":\"" ++ r.token ++ "\"\x7d"

/-- Modelled from the spec (§4.4): a JSON-marked value converts to
status 200 with an application/json content type. -/
def jsonResponse (b : String) : Response :=
  ⟨200, [("content-type", "application/json")], b⟩

/-- A headers tuple component accumulates onto the response's headers. -/
def applyHeaders (hs : List (String × String)) (r : Response) : Response :=
  { r with headers := hs ++ r.headers }

/-- A status tuple component sets the response status. -/
def setStatus (st : Nat) (r : Response) : Response :=
  { r with status := st }

/-- Modelled from the spec (§4.4): the (status, headers, jsonBody) tuple
merges into one response — the JSON part supplies body and content type,
the header part accumulates, the status part sets the status. -/
def tupleStatusHeadersJson (st : Nat) (hs : List (String × String))
    (j : LoginResponse) : Response :=
  setStatus st (applyHeaders hs (jsonResponse (encodeLoginResponse j)))

/-- Translated from src `test_response_tuple3`'s handler. -/
def tuple3Handler : Request → PathParams → Response := fun _ _ =>
  tupleStatusHeadersJson 200 [("X-Owner", "Aqil")] ⟨"token"⟩

/-- The router of `test_response_tuple3`. -/
def tuple3Router : Router :=
  ⟨[⟨.GET, "/get", tuple3Handler⟩]⟩

/-- Translated from src `test_multiple_route_nest`'s handler: greets with
the method. -/
def helloMethodHandler : Request → PathParams → Response := fun req _ =>
  textResponse ("Hello " ++ req.method.str)

/-- The `first` sub-router of `test_multiple_route_nest`. -/
def firstRouter : Router :=
  ⟨[⟨.GET, "/first", helloMethodHandler⟩]⟩

/-- The `second` sub-router of `test_multiple_route_nest`. -/
def secondRouter : Router :=
  ⟨[⟨.GET, "/second", helloMethodHandler⟩]⟩

/-- The composed app of `test_multiple_route_nest`. -/
def nestedApp : Router :=
  ((Router.mk []).nestUnder "/api/users" firstRouter).nestUnder "/api/products" secondRouter

end Axum

/-- C3: a handler error with its own response conversion is returned with
the status that conversion specifies (AppError code 400 gives status 400
with body Bad Request), while an opaque error caught by the generic
wrapper defaults to status 500. -/
theorem handler_error_own_conversion_opaque_500 :
    resultIntoResponse (errorHandlingHandler .GET) =
      some ⟨400, [("content-type", "text/plain; charset=utf-8")], "Bad Request"⟩ ∧
    resultIntoResponse (errorHandlingHandler .POST) =
      some ⟨200, [("content-type", "text/plain; charset=utf-8")], "OK"⟩ ∧
    handleErrorService .GET =
      ⟨500, [("content-type", "text/plain; charset=utf-8")],
        "Internal Server Error : Bad Request"⟩ := by
  exact ⟨by decide, by decide, by decide⟩

/-- C9: for every AppError whose code, truncated to u16, lies in
100..=999, into_response returns (no panic) a response with exactly that
status and the message as body. -/
theorem appError_intoResponse_valid_code (e : AppError)
    (h1 : 100 ≤ asU16 e.code) (h2 : asU16 e.code ≤ 999) :
    e.intoResponse =
      some ⟨asU16 e.code, [("content-type", "text/plain; charset=utf-8")], e.message⟩ := by
  unfold AppError.intoResponse statusFromU16
  rw [if_pos ⟨h1, h2⟩]
  rfl

/-- Witness for C9 at AppError code 400 message Bad Request. -/
theorem appError_intoResponse_valid_code_witness :
    (AppError.mk 400 "Bad Request").intoResponse =
      some ⟨400, [("content-type", "text/plain; charset=utf-8")], "Bad Request"⟩ :=
  appError_intoResponse_valid_code ⟨400, "Bad Request"⟩ (by decide) (by decide)

/-- C4: a handler declaring the fallible JSON extraction receives the
rejection directly — on an invalid body the pipeline does not
short-circuit, the handler body runs exactly once and turns the
rejection into an ordinary 200 response. -/
theorem json_rejection_delivered_to_handler :
    jsonExtract (textPostReq "tidak valid") = .error .missingJsonContentType ∧
    invokeJsonRoute .optIn jsonErrorHandler (textPostReq "tidak valid") =
      (⟨200, [("content-type", "text/plain; charset=utf-8")],
        "Error MissingJsonContentType(MissingJsonContentType)"⟩, 1) ∧
    invokeJsonRoute .optIn jsonErrorHandler
        (jsonPostReq "\x7b\"username\":\"Aqil\",\"password\":\"<PASSWORD>\"\x7d") =
      (⟨200, [("content-type", "text/plain; charset=utf-8")], "Hello Aqil"⟩, 1) := by
  exact ⟨rfl, by decide, by decide⟩

/-- C5: a plain-text body to the JSON extraction yields the
missing-JSON-content-type rejection kind, a JSON-typed but unparsable
body yields the malformed-JSON kind, and the two kinds are distinct. -/
theorem json_rejection_kinds_distinguishable :
    jsonExtract (textPostReq "tidak valid") = .error .missingJsonContentType ∧
    jsonExtract (jsonPostReq "tidak valid") = .error .jsonSyntaxError ∧
    JsonRejection.missingJsonContentType ≠ JsonRejection.jsonSyntaxError := by
  exact ⟨rfl, rfl, by decide⟩

/-- C6: the (status 200, X-Owner header, JSON value) tuple merges into a
single response with status 200, header X-Owner: Aqil and body equal to
the canonical JSON encoding with keys in declaration order. -/
theorem response_tuple_merge :
    dispatch tuple3Router (getReq "/get") =
      ⟨200, [("X-Owner", "Aqil"), ("content-type", "application/json")],
        "\x7b\"token\":\"token\"\x7d"⟩ := by
  decide

/-- C7: nesting prefixes every sub-router pattern with the parent prefix
at composition time into one flat route table, so GET /api/users/first
reaches the nested route's handler. -/
theorem nest_flattens_with_prefixed_patterns :
    (∀ (base sub : Router) (pfx : String),
      (base.nestUnder pfx sub).routes.map (fun rt => rt.pattern) =
        base.routes.map (fun rt => rt.pattern) ++
          sub.routes.map (fun rt => pfx ++ rt.pattern)) ∧
    nestedApp.routes.map (fun rt => rt.pattern) =
      ["/api/users/first", "/api/products/second"] ∧
    dispatch nestedApp (getReq "/api/users/first") =
      ⟨200, [("content-type", "text/plain; charset=utf-8")], "Hello GET"⟩ ∧
    dispatch nestedApp (getReq "/api/products/second") =
      ⟨200, [("content-type", "text/plain; charset=utf-8")], "Hello GET"⟩ := by
  refine ⟨fun base sub pfx => ?_, by decide, by decide, by decide⟩
  simp [Router.nestUnder, List.map_append, List.map_map, Function.comp]

namespace Axum

/- ### Stateful dispatch (for the idempotence hyperproperty) -/

/-- A route whose handler may read and replace the shared application
state: it returns the response together with the successor state. -/
structure SRoute (σ : Type) where
  method : HttpMethod
  pattern : String
  handler : σ → Request → PathParams → Response × σ

/-- A router with its bound shared application state (`with_state`). -/
structure SRouter (σ : Type) where
  routes : List (SRoute σ)
  state : σ

/-- Modelled from the spec (§4.1): route resolution for stateful routes,
same policy as `findRoute`. -/
def findSRoute {σ : Type} : List (SRoute σ) → HttpMethod → List String →
    Option (SRoute σ × PathParams)
  | [], _, _ => none
  | rt :: rts, m, segs =>
    if rt.method = m then
      match matchSegs (compilePattern rt.pattern) segs with
      | some ps => some (rt, ps)
      | none => findSRoute rts m segs
    else
      findSRoute rts m segs

/-- Modelled from the spec (§4.6, §5): dispatch threading the shared
state through the matched handler; an unmatched request leaves the
router untouched. -/
def sdispatch {σ : Type} (r : SRouter σ) (req : Request) : Response × SRouter σ :=
  match findSRoute r.routes req.method (splitSlash req.path) with
  | some (rt, ps) =>
    ((rt.handler r.state req ps).1, ⟨r.routes, (rt.handler r.state req ps).2⟩)
  | none => (notFound, r)

/-- A route performs no state mutation: its handler always returns the
state it was given. -/
def NonMutating {σ : Type} (rt : SRoute σ) : Prop :=
  ∀ s req ps, (rt.handler s req ps).2 = s

theorem findSRoute_mem {σ : Type} (rts : List (SRoute σ)) (m : HttpMethod)
    (segs : List String) (rt : SRoute σ) (ps : PathParams)
    (h : findSRoute rts m segs = some (rt, ps)) : rt ∈ rts := by
  induction rts with
  | nil => exact absurd h (by simp [findSRoute])
  | cons a t ih =>
    rw [findSRoute] at h
    by_cases hm : a.method = m
    · rw [if_pos hm] at h
      cases hmk : matchSegs (compilePattern a.pattern) segs with
      | none =>
        rw [hmk] at h
        exact List.mem_cons_of_mem a (ih h)
      | some ps' =>
        rw [hmk] at h
        have h3 : some (a, ps') = some (rt, ps) := h
        injection h3 with h4
        have h5 : a = rt := congrArg Prod.fst h4
        rw [← h5]
        exact List.mem_cons_self a t
    · rw [if_neg hm] at h
      exact List.mem_cons_of_mem a (ih h)

theorem sdispatch_eq_some {σ : Type} (r : SRouter σ) (req : Request)
    (rt : SRoute σ) (ps : PathParams)
    (h : findSRoute r.routes req.method (splitSlash req.path) = some (rt, ps)) :
    sdispatch r req =
      ((rt.handler r.state req ps).1, ⟨r.routes, (rt.handler r.state req ps).2⟩) := by
  unfold sdispatch
  rw [h]

end Axum

/-- C8: dispatching the same GET request twice, threading the state of
the first dispatch into the second, yields identical responses whenever
every handler of the router performs no state mutation. -/
theorem dispatch_idempotent_for_nonmutating {σ : Type} (r : SRouter σ) (req : Request)
    (hall : ∀ rt ∈ r.routes, NonMutating rt) (_hget : req.method = .GET) :
    (sdispatch (sdispatch r req).2 req).1 = (sdispatch r req).1 := by
  cases hfind : findSRoute r.routes req.method (splitSlash req.path) with
  | none =>
    have e1 : sdispatch r req = (notFound, r) := by
      unfold sdispatch
      rw [hfind]
    simp [e1]
  | some p =>
    obtain ⟨rt, ps⟩ := p
    have hmem := findSRoute_mem r.routes req.method (splitSlash req.path) rt ps hfind
    have hnm := hall rt hmem
    have e1 := sdispatch_eq_some r req rt ps hfind
    have key : (sdispatch r req).2 = ⟨r.routes, r.state⟩ := by
      rw [e1]
      simp [hnm r.state req ps]
    rw [key]

/-- The router of `test_state_extractor`: one GET route whose handler
only reads the shared total. -/
def stateRouter : SRouter Int :=
  ⟨[⟨.GET, "/get", fun s _ _ => (textResponse ("Total " ++ toString s), s)⟩], 100⟩

/-- Witness for C8: the state-reading router answers the same GET
request identically on two successive dispatches. -/
theorem dispatch_idempotent_for_nonmutating_witness :
    (sdispatch (sdispatch stateRouter (getReq "/get")).2 (getReq "/get")).1 =
      (sdispatch stateRouter (getReq "/get")).1 :=
  dispatch_idempotent_for_nonmutating stateRouter (getReq "/get")
    (by
      intro rt h
      rw [stateRouter, List.mem_singleton] at h
      rw [h]
      intro s req ps
      rfl)
    rfl
